import Mathlib

/-
Shallow embedding of the SpiNNaker network_tester kernel
(src/spinnaker_source/network_tester/network_tester.c together with
src/spinnaker_source/network_tester/network_tester.h).

All machine words are 32-bit unsigned integers; they are modelled as
naturals, reduced modulo 2^32 exactly where the C arithmetic wraps.
External collaborators (the SARK allocator, the hardware down-counter
tc2, the router and reinjector counter registers, the PRNG sark_rand,
the packet-send primitive and the DMA engine) are modelled as explicit
oracle parameters, so that every possible behaviour of the hardware is
a choice of oracle values.
-/

namespace NetworkTester

/-- Modulus of 32-bit machine words (2^32). -/
def two32 : Nat := 4294967296

/-- Wrapping unsigned 32-bit subtraction a - b, as computed by C uint32_t
arithmetic. -/
def sub32 (a b : Nat) : Nat := (a + (two32 - b % two32)) % two32

/-- Reinterpretation of a 32-bit word as a signed twos-complement int32_t,
used for the signed comparisons in the run loop. -/
def toInt32 (n : Nat) : Int :=
  if n % two32 < 2147483648 then ((n % two32 : Nat) : Int)
  else ((n % two32 : Nat) : Int) - (two32 : Int)

/-- Error bit NT_ERR_STILL_RUNNING (1 << 0) from network_tester.h. -/
def NT_ERR_STILL_RUNNING : Nat := 1

/-- Error bit NT_ERR_MALLOC (1 << 1) from network_tester.h. -/
def NT_ERR_MALLOC : Nat := 2

/-- Error bit NT_ERR_DMA (1 << 2) from network_tester.h. -/
def NT_ERR_DMA : Nat := 4

/-- Error bit NT_ERR_UNKNOWN_COMMAND (1 << 3) from network_tester.h. -/
def NT_ERR_UNKNOWN_COMMAND : Nat := 8

/-- Error bit NT_ERR_BAD_ARGUMENTS (1 << 4) from network_tester.h. -/
def NT_ERR_BAD_ARGUMENTS : Nat := 16

/-- Error bit NT_ERR_DEADLINE_MISSED (1 << 5) from network_tester.h. -/
def NT_ERR_DEADLINE_MISSED : Nat := 32

/-- Traffic source descriptor, following struct source_t in network_tester.h.
The fields num_retries, num_packets and retry_count, declared in the struct,
are never read nor written by network_tester.c and are therefore omitted. -/
structure Source where
  key : Nat
  burst_period_steps : Nat
  burst_duty_steps : Nat
  burst_phase_steps : Nat
  probability : Nat
  payload : Bool
  sent_count : Nat
  blocked_count : Nat
deriving DecidableEq

/-- Traffic sink descriptor, following struct sink_t in network_tester.h. -/
structure Sink where
  key : Nat
  arrived_count : Nat
deriving DecidableEq

/-- Default field values written by the initialisation loop of
set_num_sources (network_tester.c lines 136-145). -/
def defaultSource : Source :=
  { key := 0, burst_period_steps := 0, burst_duty_steps := 0,
    burst_phase_steps := 0, probability := 0, payload := false,
    sent_count := 0, blocked_count := 0 }

/-- Default field values written by the initialisation loop of
set_num_sinks (network_tester.c lines 195-198). -/
def defaultSink : Sink := { key := 0, arrived_count := 0 }

/-- The mutable global state of network_tester.c, gathered into one record.
num_sources and num_sinks are the lengths of the sources and sinks lists
(the C code keeps them in a separate variable that is always equal to the
length of the corresponding array).  sdram_word0 is the first word of the
SDRAM result block and sdram_cursor the word offset of sdram_next_results
from sdram_block.  consume models whether the packet-arrival interrupt is
enabled via the VIC. -/
structure NTState where
  error_occurred : Nat
  to_record : Nat
  record_interval_steps : Nat
  timestep_ticks : Nat
  cpu_clk : Nat
  sources : List Source
  sinks : List Sink
  last_recorded : List Nat
  recorded_value_buffer : List Nat
  old_router_timeout : Nat
  rtr_control : Nat
  consume : Bool
  sdram_word0 : Nat
  sdram_cursor : Nat
deriving DecidableEq

/-- Macro MAX_NUM_RESULTS from network_tester.c: 16 router counters, 3
reinjector counters, 3 counters per source and 1 per sink. -/
def MAX_NUM_RESULTS (num_sources num_sinks : Nat) : Nat :=
  16 + 3 + 3 * num_sources + num_sinks

/-- Function set_num_sources of network_tester.c.  The three sark_alloc
calls are modelled by the oracle booleans a1 (source array), a2
(last_recorded) and a3 (recorded_value_buffer); fresh1 and fresh2 are the
(uninitialised) contents of the two freshly allocated scratch buffers.
On any allocation failure the C code frees what it already allocated, sets
NT_ERR_MALLOC and returns with every global unchanged.  On success the new
source array holds the old entry at every index below min(new, old) (the
spin1_memcpy at lines 148-149) and the defaults elsewhere (the loop at
lines 136-145); sark_alloc(0, ...) returning NULL is accepted when the
requested count is zero. -/
def set_num_sources (st : NTState) (n : Nat) (a1 a2 a3 : Bool)
    (fresh1 fresh2 : List Nat) : NTState :=
  if a1 = false ∧ n ≠ 0 then
    { st with error_occurred := st.error_occurred ||| NT_ERR_MALLOC }
  else if a2 = false then
    { st with error_occurred := st.error_occurred ||| NT_ERR_MALLOC }
  else if a3 = false then
    { st with error_occurred := st.error_occurred ||| NT_ERR_MALLOC }
  else
    { st with
      sources := (List.range n).map (fun i => st.sources.getD i defaultSource),
      last_recorded := fresh1,
      recorded_value_buffer := fresh2 }

/-- Function set_num_sinks of network_tester.c, modelled exactly like
set_num_sources. -/
def set_num_sinks (st : NTState) (n : Nat) (a1 a2 a3 : Bool)
    (fresh1 fresh2 : List Nat) : NTState :=
  if a1 = false ∧ n ≠ 0 then
    { st with error_occurred := st.error_occurred ||| NT_ERR_MALLOC }
  else if a2 = false then
    { st with error_occurred := st.error_occurred ||| NT_ERR_MALLOC }
  else if a3 = false then
    { st with error_occurred := st.error_occurred ||| NT_ERR_MALLOC }
  else
    { st with
      sinks := (List.range n).map (fun i => st.sinks.getD i defaultSink),
      last_recorded := fresh1,
      recorded_value_buffer := fresh2 }

/-- Callback on_mc_packet of network_tester.c: the low byte of the key is
masked away (key &= ~0xFF) and the arrived counter of every sink whose key
equals the masked key is incremented (uint32_t increment, wrapping). -/
def on_mc_packet (key : Nat) (sinks : List Sink) : List Sink :=
  let k := key &&& 0xFFFFFF00
  sinks.map (fun s =>
    if s.key = k then { s with arrived_count := (s.arrived_count + 1) % two32 }
    else s)

/-- Current raw counter values read by record (network_tester.c lines
250-275), in the fixed canonical order: router diagnostic counters gated by
mask bits 0..15, reinjector counters gated by bits 16..18, then all source
sent counts (bit 24, RECORD_SENT_BIT), all source blocked counts (bit 25,
RECORD_BLOCKED_BIT) and all sink arrived counts (bit 28,
RECORD_RECEIVED_BIT).  router and reinj are oracle lists holding the
hardware register values at the moment of the sample. -/
def currentValues (st : NTState) (router reinj : List Nat) : List Nat :=
  ((List.range 16).filterMap (fun c =>
      if st.to_record.testBit c then some (router.getD c 0) else none))
  ++ ((List.range 3).filterMap (fun c =>
      if st.to_record.testBit (c + 16) then some (reinj.getD c 0) else none))
  ++ (if st.to_record.testBit 24 then st.sources.map (fun s => s.sent_count) else [])
  ++ (if st.to_record.testBit 25 then st.sources.map (fun s => s.blocked_count) else [])
  ++ (if st.to_record.testBit 28 then st.sinks.map (fun s => s.arrived_count) else [])

/-- Number of counters selected for recording: the length of every sample
taken in a state with this mask and these source/sink counts. -/
def numSelected (to_record num_sources num_sinks : Nat) : Nat :=
  ((List.range 16).filter (fun c => to_record.testBit c)).length
  + ((List.range 3).filter (fun c => to_record.testBit (c + 16))).length
  + (if to_record.testBit 24 then num_sources else 0)
  + (if to_record.testBit 25 then num_sources else 0)
  + (if to_record.testBit 28 then num_sinks else 0)

/-- Function record of network_tester.c.  For each selected counter j the
APPEND_RESULT macro stores value - last_recorded[j] (wrapping uint32_t
subtraction) in recorded_value_buffer[j] and then overwrites
last_recorded[j] with the value; entries of the two buffers beyond the
number of selected counters keep their previous contents.  Unless first is
true or no counter is selected, the delta vector is handed to
spin1_dma_transfer, whose success is the oracle dmaOk (failure sets
NT_ERR_DMA), and sdram_next_results is advanced by the number of values
written in either case. -/
def recordStep (st : NTState) (router reinj : List Nat) (first : Bool)
    (dmaOk : Bool) : NTState :=
  let values := currentValues st router reinj
  let n := values.length
  let deltas := (List.range n).map
    (fun j => sub32 (values.getD j 0) (st.last_recorded.getD j 0))
  let st1 := { st with
    recorded_value_buffer := deltas ++ st.recorded_value_buffer.drop n,
    last_recorded := values ++ st.last_recorded.drop n }
  if first = false ∧ 0 < n then
    { st1 with
      error_occurred :=
        if dmaOk then st1.error_occurred
        else st1.error_occurred ||| NT_ERR_DMA,
      sdram_cursor := st1.sdram_cursor + n }
  else st1

/-- Iterated non-baseline samples: recordIter st hw dma s performs s calls
record(false), the i-th one reading hardware counters hw i and having DMA
success dma i. -/
def recordIter (st : NTState) (hw : Nat → List Nat × List Nat)
    (dma : Nat → Bool) : Nat → NTState
  | 0 => st
  | s + 1 =>
    let st1 := recordIter st hw dma s
    recordStep st1 (hw s).1 (hw s).2 false (dma s)

/-- Burst-activity test for one source on one timestep (network_tester.c
lines 327-335): with a non-zero burst period the source is active exactly
when its phase is below the duty; with period 0 it is always active. -/
def burstActive (s : Source) : Bool :=
  if s.burst_period_steps ≠ 0 then
    decide (s.burst_phase_steps < s.burst_duty_steps)
  else true

/-- Phase advance for one source on one timestep (network_tester.c lines
331-332): with a non-zero period the uint32_t phase is incremented and
reset to 0 once it reaches or exceeds the period; with period 0 the phase
is untouched. -/
def burstAdvance (s : Source) : Source :=
  if s.burst_period_steps ≠ 0 then
    let p := (s.burst_phase_steps + 1) % two32
    { s with burst_phase_steps := if s.burst_period_steps ≤ p then 0 else p }
  else s

/-- Packet-generation decision (network_tester.c lines 339-340): a
probability of 0xFFFFFFFF short-circuits to generate without drawing;
otherwise a packet is generated exactly when the uniform 32-bit draw from
sark_rand is strictly below the probability. -/
def generate (probability draw : Nat) : Bool :=
  probability = 0xFFFFFFFF ∨ draw < probability

/-- One engine timestep for one source (loop body at network_tester.c lines
324-351): burst activity is evaluated, the phase advanced, and when active
and the generation decision fires, a packet send is attempted (success
given by the oracle sendOk), bumping the sent or the blocked counter. -/
def sourceTick (draw : Nat) (sendOk : Bool) (s : Source) : Source :=
  let active := burstActive s
  let s1 := burstAdvance s
  if active ∧ generate s1.probability draw then
    if sendOk then { s1 with sent_count := (s1.sent_count + 1) % two32 }
    else { s1 with blocked_count := (s1.blocked_count + 1) % two32 }
  else s1

/-- One engine timestep over the whole source list; draw and sendOk are
indexed by the source position. -/
def tickSources (draw : Nat → Nat) (sendOk : Nat → Bool)
    (sources : List Source) : List Source :=
  sources.mapIdx (fun i s => sourceTick (draw i) (sendOk i) s)

/-- Ghost trace of the burst activity of a single source over consecutive
timesteps, each step applying the same activity test and phase advance used
by sourceTick. -/
def burstPattern (s : Source) : Nat → List Bool
  | 0 => []
  | n + 1 => burstActive s :: burstPattern (burstAdvance s) n

/-- Oracle inputs of one invocation of run: the successive values read from
the free-running hardware down-counter tc2 (readings), the sark_rand draws
and packet-send outcomes (indexed by completed timestep then by source
position), and the hardware counter values and DMA outcome of each record
call (indexed by sample number within this run). -/
structure RunEnv where
  readings : List Nat
  draw : Nat → Nat → Nat
  send : Nat → Nat → Bool
  hw : Nat → List Nat × List Nat
  dma : Nat → Bool

/-- Test at network_tester.c lines 320-321: the freshly scheduled deadline
next is already at or before the current counter reading t, computed as the
signed int32 comparison time_ticks - next_timestep_ticks <= 0 (tc2 is a
down-counter, so later moments have smaller counter values). -/
def deadlinePast (t next : Nat) : Bool :=
  decide (toInt32 (sub32 t next) ≤ 0)

/-- State of the run busy loop: the globals (st), the local variables
next_timestep_ticks (next), time_left_steps (left), record_elapsed_steps
(recElapsed) and deadline_missed (missed), a count of completed timesteps
(done) and of record calls made (samples), both used to index the oracles,
and the ghost list lates holding, for each completed timestep, whether the
deadline test flagged it late. -/
structure RunSt where
  st : NTState
  next : Nat
  left : Nat
  done : Nat
  recElapsed : Nat
  samples : Nat
  missed : Bool
  lates : List Bool
deriving DecidableEq

/-- Busy loop of run (network_tester.c lines 314-359).  Each element of
readings is one read of tc2[TC_COUNT]; a read that has not yet crossed the
current deadline is skipped (the continue at line 318), otherwise one
timestep executes: the next deadline is scheduled and checked, every source
is ticked, and, when the recording interval (a signed int32) is positive
and the incremented elapsed step counter has reached it, a non-baseline
sample is recorded.  Returns none when the scripted readings run out before
the loop finishes, a model artifact standing for the busy wait still
spinning. -/
def runAux (env : RunEnv) (timestep : Nat) (readings : List Nat)
    (r : RunSt) : Option RunSt :=
  match r.left with
  | 0 => some r
  | left1 + 1 =>
    match readings with
    | [] => none
    | t :: rest =>
      if 0 < toInt32 (sub32 t r.next) then runAux env timestep rest r
      else
        let next1 := sub32 r.next timestep
        let late := deadlinePast t next1
        let st1 := { r.st with
          sources := tickSources (env.draw r.done) (env.send r.done) r.st.sources }
        let r1 : RunSt :=
          if 0 < toInt32 r.st.record_interval_steps then
            if r.st.record_interval_steps % two32 ≤ (r.recElapsed + 1) % two32 then
              { st := recordStep st1 (env.hw r.samples).1 (env.hw r.samples).2
                  false (env.dma r.samples),
                next := next1, left := left1, done := r.done + 1,
                recElapsed := 0, samples := r.samples + 1,
                missed := r.missed || late, lates := r.lates ++ [late] }
            else
              { st := st1, next := next1, left := left1, done := r.done + 1,
                recElapsed := (r.recElapsed + 1) % two32, samples := r.samples,
                missed := r.missed || late, lates := r.lates ++ [late] }
          else
            { st := st1, next := next1, left := left1, done := r.done + 1,
              recElapsed := r.recElapsed, samples := r.samples,
              missed := r.missed || late, lates := r.lates ++ [late] }
        runAux env timestep rest r1

/-- Function run of network_tester.c (lines 298-367): the first tc2 read
initialises the deadline so tick 0 occurs immediately, a baseline sample is
taken (record(true)), the busy loop executes the requested number of
timesteps, and when the recording interval is exactly 0 one final sample is
taken after the loop. -/
def run (env : RunEnv) (st : NTState) (ticks : Nat) : Option RunSt :=
  match env.readings with
  | [] => none
  | t0 :: rest =>
    let st0 := recordStep st (env.hw 0).1 (env.hw 0).2 true (env.dma 0)
    match runAux env st.timestep_ticks rest
        { st := st0, next := t0, left := ticks, done := 0, recElapsed := 0,
          samples := 1, missed := false, lates := [] } with
    | none => none
    | some r =>
      if r.st.record_interval_steps = 0 then
        some { r with
          st := recordStep r.st (env.hw r.samples).1 (env.hw r.samples).2
            false (env.dma r.samples),
          samples := r.samples + 1 }
      else some r

/-- Update of the entry at position i of the source list; for i out of
range the list is unchanged (the corresponding C store is an out-of-bounds
array write, undefined behaviour with no defined effect on the array). -/
def updateSource (sources : List Source) (i : Nat) (f : Source → Source) :
    List Source :=
  sources.mapIdx (fun j s => if j = i then f s else s)

/-- Update of the entry at position i of the sink list. -/
def updateSink (sinks : List Sink) (i : Nat) (f : Sink → Sink) : List Sink :=
  sinks.mapIdx (fun j s => if j = i then f s else s)

/-- Oracle inputs of one interpreter instruction: the outcomes and fresh
buffer contents of the allocations made by set_num_sources and
set_num_sinks (reached through NT_CMD_NUM), and the run oracles for
NT_CMD_RUN. -/
structure Env where
  srcAlloc : Bool × Bool × Bool
  srcFresh1 : List Nat
  srcFresh2 : List Nat
  sinkAlloc : Bool × Bool × Bool
  sinkFresh1 : List Nat
  sinkFresh2 : List Nat
  runEnv : RunEnv

/-- Result of interpreting one instruction: cont carries the new state and
the remaining command words, halt is reached only through NT_CMD_EXIT
(directly or by the unknown-opcode fall-through), and stuck is a model
artifact for a run whose scripted counter readings ran out or an operand
read past the end of the modelled command list. -/
inductive StepRes where
  | cont (st : NTState) (rest : List Nat) : StepRes
  | halt (st : NTState) : StepRes
  | stuck : StepRes
deriving DecidableEq

/-- Dispatch switch of interpreter_main (network_tester.c lines 382-535).
The opcode is the low byte of the instruction word and the inline
source/sink index the next byte; the word itself has already been consumed
(commands++ at line 391), and rest holds the following words.  Opcodes that
read an operand consume exactly one further word, also on their error
paths, except NT_CMD_PAYLOAD and NT_CMD_NO_PAYLOAD which take no operand.
NT_CMD_BURST_PERIOD, NT_CMD_BURST_DUTY and NT_CMD_BURST_PHASE store to
sources[num] without any bounds check (lines 473-483): for num out of
range that C store is an out-of-bounds write (undefined behaviour), which
updateSource renders as leaving the collection unchanged, and no error bit
is set.  NT_CMD_SLEEP, NT_CMD_BARRIER and NT_CMD_SEED only touch external
collaborators (timer, event system, PRNG) and leave the modelled state
unchanged.  An unrecognised opcode sets NT_ERR_UNKNOWN_COMMAND and falls
through to NT_CMD_EXIT, which publishes the accumulated error word in
sdram_block[0] and stops. -/
def execInstr (env : Env) (st : NTState) (w : Nat) (rest : List Nat) :
    StepRes :=
  if w &&& 0xFF = 0x00 then
    StepRes.halt { st with sdram_word0 := st.error_occurred }
  else if w &&& 0xFF = 0x01 then
    match rest with
    | [] => StepRes.stuck
    | _ :: rest1 => StepRes.cont st rest1
  else if w &&& 0xFF = 0x02 then
    StepRes.cont st rest
  else if w &&& 0xFF = 0x03 then
    match rest with
    | [] => StepRes.stuck
    | _ :: rest1 => StepRes.cont st rest1
  else if w &&& 0xFF = 0x04 then
    match rest with
    | [] => StepRes.stuck
    | op :: rest1 =>
      StepRes.cont { st with timestep_ticks := op * st.cpu_clk % two32 / 1000 } rest1
  else if w &&& 0xFF = 0x05 then
    match rest with
    | [] => StepRes.stuck
    | op :: rest1 =>
      match run env.runEnv st op with
      | none => StepRes.stuck
      | some r =>
        if r.missed then
          StepRes.cont
            { r.st with error_occurred := r.st.error_occurred ||| NT_ERR_DEADLINE_MISSED }
            rest1
        else StepRes.cont r.st rest1
  else if w &&& 0xFF = 0x06 then
    match rest with
    | [] => StepRes.stuck
    | op :: rest1 =>
      let st1 := set_num_sources st (op &&& 0xFF)
        env.srcAlloc.1 env.srcAlloc.2.1 env.srcAlloc.2.2 env.srcFresh1 env.srcFresh2
      let st2 := set_num_sinks st1 ((op >>> 8) &&& 0xFF)
        env.sinkAlloc.1 env.sinkAlloc.2.1 env.sinkAlloc.2.2 env.sinkFresh1 env.sinkFresh2
      StepRes.cont st2 rest1
  else if w &&& 0xFF = 0x07 then
    match rest with
    | [] => StepRes.stuck
    | op :: rest1 =>
      StepRes.cont { st with
        old_router_timeout := st.rtr_control,
        rtr_control := (st.rtr_control &&& 0xFFFF) ||| (op &&& 0xFFFF0000) } rest1
  else if w &&& 0xFF = 0x08 then
    StepRes.cont { st with
      rtr_control := (st.rtr_control &&& 0xFFFF) ||| (st.old_router_timeout &&& 0xFFFF0000) } rest
  else if w &&& 0xFF = 0x09 then
    StepRes.cont { st with rtr_control := st.rtr_control ||| 4 } rest
  else if w &&& 0xFF = 0x0A then
    StepRes.cont { st with rtr_control := st.rtr_control &&& 0xFFFFFFFB } rest
  else if w &&& 0xFF = 0x10 then
    match rest with
    | [] => StepRes.stuck
    | op :: rest1 => StepRes.cont { st with to_record := op } rest1
  else if w &&& 0xFF = 0x11 then
    match rest with
    | [] => StepRes.stuck
    | op :: rest1 => StepRes.cont { st with record_interval_steps := op } rest1
  else if w &&& 0xFF = 0x20 then
    match rest with
    | [] => StepRes.stuck
    | op :: rest1 =>
      if (w >>> 8) &&& 0xFF < st.sources.length then
        StepRes.cont
          { st with sources := updateSource st.sources ((w >>> 8) &&& 0xFF) (fun s => { s with probability := op }) }
          rest1
      else
        StepRes.cont
          { st with error_occurred := st.error_occurred ||| NT_ERR_BAD_ARGUMENTS } rest1
  else if w &&& 0xFF = 0x21 then
    match rest with
    | [] => StepRes.stuck
    | op :: rest1 =>
      StepRes.cont
        { st with sources := updateSource st.sources ((w >>> 8) &&& 0xFF) (fun s => { s with burst_period_steps := op }) }
        rest1
  else if w &&& 0xFF = 0x22 then
    match rest with
    | [] => StepRes.stuck
    | op :: rest1 =>
      StepRes.cont
        { st with sources := updateSource st.sources ((w >>> 8) &&& 0xFF) (fun s => { s with burst_duty_steps := op }) }
        rest1
  else if w &&& 0xFF = 0x23 then
    match rest with
    | [] => StepRes.stuck
    | op :: rest1 =>
      StepRes.cont
        { st with sources := updateSource st.sources ((w >>> 8) &&& 0xFF) (fun s => { s with burst_phase_steps := op }) }
        rest1
  else if w &&& 0xFF = 0x24 then
    match rest with
    | [] => StepRes.stuck
    | op :: rest1 =>
      if (w >>> 8) &&& 0xFF < st.sources.length then
        StepRes.cont
          { st with sources := updateSource st.sources ((w >>> 8) &&& 0xFF) (fun s => { s with key := op }) } rest1
      else
        StepRes.cont
          { st with error_occurred := st.error_occurred ||| NT_ERR_BAD_ARGUMENTS } rest1
  else if w &&& 0xFF = 0x25 then
    if (w >>> 8) &&& 0xFF < st.sources.length then
      StepRes.cont
        { st with sources := updateSource st.sources ((w >>> 8) &&& 0xFF) (fun s => { s with payload := true }) } rest
    else
      StepRes.cont
        { st with error_occurred := st.error_occurred ||| NT_ERR_BAD_ARGUMENTS } rest
  else if w &&& 0xFF = 0x26 then
    if (w >>> 8) &&& 0xFF < st.sources.length then
      StepRes.cont
        { st with sources := updateSource st.sources ((w >>> 8) &&& 0xFF) (fun s => { s with payload := false }) } rest
    else
      StepRes.cont
        { st with error_occurred := st.error_occurred ||| NT_ERR_BAD_ARGUMENTS } rest
  else if w &&& 0xFF = 0x30 then
    StepRes.cont { st with consume := true } rest
  else if w &&& 0xFF = 0x31 then
    StepRes.cont { st with consume := false } rest
  else if w &&& 0xFF = 0x32 then
    match rest with
    | [] => StepRes.stuck
    | op :: rest1 =>
      if (w >>> 8) &&& 0xFF < st.sinks.length then
        StepRes.cont
          { st with sinks := updateSink st.sinks ((w >>> 8) &&& 0xFF) (fun s => { s with key := op }) } rest1
      else
        StepRes.cont
          { st with error_occurred := st.error_occurred ||| NT_ERR_BAD_ARGUMENTS } rest1
  else
    StepRes.halt
      { st with
        error_occurred := st.error_occurred ||| NT_ERR_UNKNOWN_COMMAND,
        sdram_word0 := st.error_occurred ||| NT_ERR_UNKNOWN_COMMAND }

/-- Iterated interpretation: execProgram envs fuel i st cmds interprets up
to fuel instructions, the instruction numbered i (and following) drawing
its oracles from envs. -/
def execProgram (envs : Nat → Env) (fuel i : Nat) (st : NTState)
    (cmds : List Nat) : StepRes :=
  match fuel, cmds with
  | 0, _ => StepRes.stuck
  | _ + 1, [] => StepRes.stuck
  | fuel1 + 1, w :: rest =>
    match execInstr (envs i) st w rest with
    | StepRes.cont st1 rest1 => execProgram envs fuel1 (i + 1) st1 rest1
    | r => r

/-- Globals as set up by c_main before the interpreter starts: everything
zeroed (C statics), 100 microsecond default timestep, no sources or sinks,
the still-running sentinel published in the first result word and the
result cursor one word past it.  cpu_clk is the hardware clock frequency in
MHz, rtr0 the initial router control register value, cns the initial state
of the packet-arrival interrupt enable, and lr and rvb the uninitialised
contents of the two freshly allocated scratch buffers. -/
def initState (cpu_clk rtr0 : Nat) (cns : Bool) (lr rvb : List Nat) :
    NTState :=
  { error_occurred := 0, to_record := 0, record_interval_steps := 0,
    timestep_ticks := 100 * cpu_clk % two32, cpu_clk := cpu_clk,
    sources := [], sinks := [], last_recorded := lr,
    recorded_value_buffer := rvb, old_router_timeout := 0,
    rtr_control := rtr0, consume := cns,
    sdram_word0 := NT_ERR_STILL_RUNNING, sdram_cursor := 1 }

/-- Extraction of the state carried by a step result (an arbitrary state
for stuck). -/
def stateOf (r : StepRes) : NTState :=
  match r with
  | StepRes.cont st _ => st
  | StepRes.halt st => st
  | StepRes.stuck => initState 0 0 false [] []

/-- Extraction of an optional run result (an arbitrary run state when the
scripted readings ran out). -/
def runStOf (r : Option RunSt) : RunSt :=
  match r with
  | some x => x
  | none =>
    { st := initState 0 0 false [] [], next := 0, left := 0, done := 0,
      recElapsed := 0, samples := 0, missed := false, lates := [] }

/-- Run oracle with no scripted readings, used where a run never happens. -/
def zeroRunEnv : RunEnv :=
  { readings := [], draw := fun _ _ => 0, send := fun _ _ => true,
    hw := fun _ => ([], []), dma := fun _ => true }

/-- Instruction oracle with all allocations succeeding and empty fresh
buffers. -/
def okEnv : Env :=
  { srcAlloc := (true, true, true), srcFresh1 := [], srcFresh2 := [],
    sinkAlloc := (true, true, true), sinkFresh1 := [], sinkFresh2 := [],
    runEnv := zeroRunEnv }

/-- Concrete state with one fully populated source and one sink, used to
witness the resize theorems. -/
def c1state : NTState :=
  { initState 200 0 false [] [] with
    sources := [{ key := 7, burst_period_steps := 5, burst_duty_steps := 2,
                  burst_phase_steps := 1, probability := 9, payload := true,
                  sent_count := 3, blocked_count := 4 }],
    sinks := [{ key := 11, arrived_count := 6 }] }

/-- Concrete state with a single default source, used to evaluate the
unchecked burst setters. -/
def c2state : NTState :=
  { initState 200 0 false [] [] with sources := [defaultSource] }

/-- Run oracle scripting three counter readings in which the second
executed timestep lags its freshly scheduled deadline. -/
def c5run : RunEnv := { zeroRunEnv with readings := [100, 100, 50] }

/-- Instruction oracle carrying the scripted c5run readings. -/
def c5ienv : Env := { okEnv with runEnv := c5run }

/-- Concrete state with a 10-tick timestep and nothing recorded, used to
witness the run deadline theorem. -/
def c5st : NTState :=
  { initState 200 0 false [] [] with timestep_ticks := 10 }

/-- Concrete state recording only the per-source sent counters (mask bit
24), with one source that has sent 10 packets. -/
def c6st : NTState :=
  { initState 200 0 false [0] [0] with
    to_record := 16777216,
    sources := [{ defaultSource with sent_count := 10 }] }

/-- State c6st after a baseline sample and after its source sent 7 more
packets. -/
def c6mid : NTState :=
  { recordStep c6st [] [] true true with
    sources := [{ defaultSource with sent_count := 17 }] }

/-- Concrete bursty source at phase 7, past the end of its period. -/
def c4src : Source :=
  { defaultSource with
    burst_period_steps := 5, burst_duty_steps := 2, burst_phase_steps := 7 }

/-- Concrete bursty source whose phase was pushed far outside its period. -/
def c9src : Source :=
  { defaultSource with
    burst_period_steps := 5, burst_duty_steps := 2, burst_phase_steps := 100 }

/-- Concrete non-bursty source (period 0) at an arbitrary phase. -/
def c9srcB : Source := { defaultSource with burst_phase_steps := 77 }

/-- Source state produced by the command sequence of the burst-phase
counterexample. -/
def c9done : Source :=
  { defaultSource with
    burst_period_steps := 5, burst_phase_steps := 100 }

theorem getD_map_range {α : Type} (f : Nat → α) {n i : Nat} (d : α)
    (h : i < n) : ((List.range n).map f).getD i d = f i := by
  have hlen : i < ((List.range n).map f).length := by
    simpa using h
  rw [List.getD_eq_getElem _ _ hlen]
  simp

theorem set_num_sources_success (st : NTState) (n : Nat) (a1 a2 a3 : Bool)
    (f1 f2 : List Nat) (h1 : a1 = true ∨ n = 0) (h2 : a2 = true)
    (h3 : a3 = true) :
    set_num_sources st n a1 a2 a3 f1 f2 = { st with
      sources := (List.range n).map (fun i => st.sources.getD i defaultSource),
      last_recorded := f1, recorded_value_buffer := f2 } := by
  unfold set_num_sources
  rcases h1 with h1 | h1 <;> simp [h1, h2, h3]

theorem set_num_sinks_success (st : NTState) (n : Nat) (a1 a2 a3 : Bool)
    (f1 f2 : List Nat) (h1 : a1 = true ∨ n = 0) (h2 : a2 = true)
    (h3 : a3 = true) :
    set_num_sinks st n a1 a2 a3 f1 f2 = { st with
      sinks := (List.range n).map (fun i => st.sinks.getD i defaultSink),
      last_recorded := f1, recorded_value_buffer := f2 } := by
  unfold set_num_sinks
  rcases h1 with h1 | h1 <;> simp [h1, h2, h3]

/-- C1: every successful resize of the source or sink collection from
length L to length N keeps every entry below min(L, N) with all of its
prior field values exactly, and fills every entry at an index in [L, N)
with the inert defaults: key 0, burst period, duty and phase 0,
probability 0, payload false and all counters 0. -/
theorem resize_preserves_prefix_and_defaults
    (st : NTState) (n m : Nat) (sa1 sa2 sa3 ka1 ka2 ka3 : Bool)
    (f1 f2 g1 g2 : List Nat)
    (hsa1 : sa1 = true ∨ n = 0) (hsa2 : sa2 = true) (hsa3 : sa3 = true)
    (hka1 : ka1 = true ∨ m = 0) (hka2 : ka2 = true) (hka3 : ka3 = true) :
    ((set_num_sources st n sa1 sa2 sa3 f1 f2).sources.length = n
      ∧ (∀ i, i < n → i < st.sources.length →
          (set_num_sources st n sa1 sa2 sa3 f1 f2).sources.getD i defaultSource
            = st.sources.getD i defaultSource)
      ∧ (∀ i, st.sources.length ≤ i → i < n →
          (set_num_sources st n sa1 sa2 sa3 f1 f2).sources.getD i defaultSource
            = defaultSource))
    ∧ ((set_num_sinks st m ka1 ka2 ka3 g1 g2).sinks.length = m
      ∧ (∀ i, i < m → i < st.sinks.length →
          (set_num_sinks st m ka1 ka2 ka3 g1 g2).sinks.getD i defaultSink
            = st.sinks.getD i defaultSink)
      ∧ (∀ i, st.sinks.length ≤ i → i < m →
          (set_num_sinks st m ka1 ka2 ka3 g1 g2).sinks.getD i defaultSink
            = defaultSink))
    ∧ defaultSource.key = 0 ∧ defaultSource.burst_period_steps = 0
    ∧ defaultSource.burst_duty_steps = 0 ∧ defaultSource.burst_phase_steps = 0
    ∧ defaultSource.probability = 0 ∧ defaultSource.payload = false
    ∧ defaultSource.sent_count = 0 ∧ defaultSource.blocked_count = 0
    ∧ defaultSink.key = 0 ∧ defaultSink.arrived_count = 0 := by
  rw [set_num_sources_success st n sa1 sa2 sa3 f1 f2 hsa1 hsa2 hsa3,
      set_num_sinks_success st m ka1 ka2 ka3 g1 g2 hka1 hka2 hka3]
  refine ⟨⟨by simp, fun i hi hi2 => ?_, fun i hi hi2 => ?_⟩,
          ⟨by simp, fun i hi hi2 => ?_, fun i hi hi2 => ?_⟩,
          rfl, rfl, rfl, rfl, rfl, rfl, rfl, rfl, rfl, rfl⟩
  · exact getD_map_range _ _ hi
  · rw [getD_map_range _ _ hi2]
    exact List.getD_eq_default _ _ hi
  · exact getD_map_range _ _ hi
  · rw [getD_map_range _ _ hi2]
    exact List.getD_eq_default _ _ hi

theorem resize_preserves_prefix_and_defaults_witness :
    (set_num_sources c1state 2 true true true [] []).sources.getD 0 defaultSource
      = c1state.sources.getD 0 defaultSource
    ∧ (set_num_sources c1state 2 true true true [] []).sources.getD 1 defaultSource
      = defaultSource
    ∧ (set_num_sinks c1state 3 true true true [] []).sinks.getD 0 defaultSink
      = c1state.sinks.getD 0 defaultSink
    ∧ (set_num_sinks c1state 3 true true true [] []).sinks.getD 2 defaultSink
      = defaultSink := by
  have h := resize_preserves_prefix_and_defaults c1state 2 3 true true true
    true true true [] [] [] [] (Or.inl rfl) rfl rfl (Or.inl rfl) rfl rfl
  exact ⟨h.1.2.1 0 (by decide) (by decide), h.1.2.2 1 (by decide) (by decide),
         h.2.1.2.1 0 (by decide) (by decide), h.2.1.2.2 2 (by decide) (by decide)⟩

/-- C7: when any of the three allocations of a registry resize fails, the
resize sets the allocation-failed error bit and leaves the previous
collection, the other collection, both scratch buffers and everything else
in the state untouched: the operation is atomic-or-noop. -/
theorem resize_alloc_failure_is_noop
    (st : NTState) (n : Nat) (a1 a2 a3 : Bool) (f1 f2 : List Nat)
    (h : (a1 = false ∧ n ≠ 0) ∨ a2 = false ∨ a3 = false) :
    set_num_sources st n a1 a2 a3 f1 f2
      = { st with error_occurred := st.error_occurred ||| NT_ERR_MALLOC }
    ∧ set_num_sinks st n a1 a2 a3 f1 f2
      = { st with error_occurred := st.error_occurred ||| NT_ERR_MALLOC } := by
  rcases h with ⟨h1, h2⟩ | h | h <;> constructor <;>
    simp [set_num_sources, set_num_sinks, *]

theorem resize_alloc_failure_is_noop_witness :
    set_num_sources c1state 3 false true true [4] [5]
      = { c1state with error_occurred := c1state.error_occurred ||| NT_ERR_MALLOC }
    ∧ set_num_sinks c1state 3 true false true [4] [5]
      = { c1state with error_occurred := c1state.error_occurred ||| NT_ERR_MALLOC } := by
  exact ⟨(resize_alloc_failure_is_noop c1state 3 false true true [4] [5]
            (Or.inl ⟨rfl, by decide⟩)).1,
         (resize_alloc_failure_is_noop c1state 3 true false true [4] [5]
            (Or.inr (Or.inl rfl))).2⟩

theorem masked_key_low_byte (key : Nat) : (key &&& 0xFFFFFF00) &&& 0xFF = 0 := by
  rw [Nat.land_assoc]
  have h : (0xFFFFFF00 &&& 0xFF : Nat) = 0 := by decide
  rw [h]
  simp

/-- C10: the arrival handler masks away the low 8 bits of the inbound key
and increments the arrived counter of every sink (all matching sinks, not
only the first) whose configured key equals the masked key; when no sink
matches, the sink list is unchanged; and a sink whose configured key has
any of its low 8 bits set is never touched by any arriving packet. -/
theorem on_mc_packet_spec (key : Nat) (sinks : List Sink) :
    (on_mc_packet key sinks).length = sinks.length
    ∧ (∀ i, i < sinks.length →
        (on_mc_packet key sinks).getD i defaultSink =
          (if (sinks.getD i defaultSink).key = key &&& 0xFFFFFF00 then
            { sinks.getD i defaultSink with
              arrived_count := ((sinks.getD i defaultSink).arrived_count + 1) % two32 }
          else sinks.getD i defaultSink))
    ∧ ((∀ i, i < sinks.length →
          (sinks.getD i defaultSink).key ≠ key &&& 0xFFFFFF00) →
        on_mc_packet key sinks = sinks)
    ∧ (∀ i, i < sinks.length → (sinks.getD i defaultSink).key &&& 0xFF ≠ 0 →
        (on_mc_packet key sinks).getD i defaultSink = sinks.getD i defaultSink) := by
  have hlen : (on_mc_packet key sinks).length = sinks.length := by
    simp [on_mc_packet]
  have hidx : ∀ i, i < sinks.length →
      (on_mc_packet key sinks).getD i defaultSink =
        (if (sinks.getD i defaultSink).key = key &&& 0xFFFFFF00 then
          { sinks.getD i defaultSink with
            arrived_count := ((sinks.getD i defaultSink).arrived_count + 1) % two32 }
        else sinks.getD i defaultSink) := by
    intro i hi
    have hi2 : i < (on_mc_packet key sinks).length := by rw [hlen]; exact hi
    rw [List.getD_eq_getElem _ _ hi2, List.getD_eq_getElem _ _ hi]
    simp [on_mc_packet]
  refine ⟨hlen, hidx, fun hnone => ?_, fun i hi hlow => ?_⟩
  · apply List.ext_getElem hlen
    intro i hi1 hi2
    have h1 := hidx i hi2
    rw [List.getD_eq_getElem _ _ hi1, List.getD_eq_getElem _ _ hi2] at h1
    have hn := hnone i hi2
    rw [List.getD_eq_getElem _ _ hi2] at hn
    rw [h1, if_neg hn]
  · rw [hidx i hi, if_neg]
    intro hkey
    apply hlow
    rw [hkey]
    exact masked_key_low_byte key

theorem on_mc_packet_spec_witness :
    (on_mc_packet 0x1FF [{ key := 0x100, arrived_count := 0 },
                         { key := 0x123, arrived_count := 5 },
                         { key := 0x100, arrived_count := 9 }]).getD 0 defaultSink
      = { key := 0x100, arrived_count := 1 }
    ∧ (on_mc_packet 0x1FF [{ key := 0x100, arrived_count := 0 },
                           { key := 0x123, arrived_count := 5 },
                           { key := 0x100, arrived_count := 9 }]).getD 1 defaultSink
      = { key := 0x123, arrived_count := 5 }
    ∧ (on_mc_packet 0x1FF [{ key := 0x100, arrived_count := 0 },
                           { key := 0x123, arrived_count := 5 },
                           { key := 0x100, arrived_count := 9 }]).getD 2 defaultSink
      = { key := 0x100, arrived_count := 10 }
    ∧ on_mc_packet 0x2FF [{ key := 0x100, arrived_count := 0 }]
      = [{ key := 0x100, arrived_count := 0 }] := by
  have h1 := on_mc_packet_spec 0x1FF
    [{ key := 0x100, arrived_count := 0 }, { key := 0x123, arrived_count := 5 },
     { key := 0x100, arrived_count := 9 }]
  have h2 := on_mc_packet_spec 0x2FF [{ key := 0x100, arrived_count := 0 }]
  refine ⟨(h1.2.1 0 (by decide)).trans (by decide),
          (h1.2.2.2 1 (by decide) (by decide)).trans (by decide),
          (h1.2.1 2 (by decide)).trans (by decide),
          h2.2.2.1 ?_⟩
  intro i hi
  have h0 : i = 0 := by simp at hi; omega
  subst h0
  decide

/-- C3: in the packet-generation decision of the engine, probability
0xFFFFFFFF generates on every active tick regardless of the random draw,
probability 0 never generates regardless of the draw, and every other
probability p generates exactly when the uniform 32-bit draw is strictly
less than p. -/
theorem generation_decision_spec :
    (∀ draw, generate 0xFFFFFFFF draw = true)
    ∧ (∀ draw, generate 0 draw = false)
    ∧ (∀ p draw, p ≠ 0xFFFFFFFF → (generate p draw = true ↔ draw < p)) := by
  refine ⟨fun draw => ?_, fun draw => ?_, fun p draw hp => ?_⟩
  · simp [generate]
  · simp [generate]
  · simp [generate, hp]

theorem generation_decision_spec_witness :
    generate 0xFFFFFFFF 0 = true ∧ generate 0 4000000000 = false
    ∧ generate 5 3 = true ∧ generate 5 7 = false := by
  refine ⟨generation_decision_spec.1 0, generation_decision_spec.2.1 4000000000,
          (generation_decision_spec.2.2 5 3 (by decide)).mpr (by decide), ?_⟩
  have h := (generation_decision_spec.2.2 5 7 (by decide))
  cases hg : generate 5 7
  · rfl
  · exact absurd (h.mp hg) (by decide)

/-- C4: on every engine timestep a source with a non-zero burst period is
active exactly when its phase is below the duty, and its phase advances by
one, wrapping to 0 when it reaches the period; a source with period 0 is
active on every tick; and for period 5, duty 2 and starting phase 0 the
activity pattern over 10 consecutive ticks is 1,1,0,0,0,1,1,0,0,0. -/
theorem burst_phase_spec :
    (∀ s : Source, s.burst_period_steps ≠ 0 →
        burstActive s = decide (s.burst_phase_steps < s.burst_duty_steps)
        ∧ (burstAdvance s).burst_phase_steps =
            (if s.burst_period_steps ≤ (s.burst_phase_steps + 1) % two32 then 0
             else (s.burst_phase_steps + 1) % two32))
    ∧ (∀ s : Source, s.burst_period_steps = 0 →
        burstActive s = true ∧ burstAdvance s = s)
    ∧ burstPattern
        { defaultSource with burst_period_steps := 5, burst_duty_steps := 2 } 10
      = [true, true, false, false, false, true, true, false, false, false] := by
  refine ⟨fun s h => ⟨?_, ?_⟩, fun s h => ⟨?_, ?_⟩, by decide⟩
  · simp [burstActive, h]
  · simp [burstAdvance, h]
  · simp [burstActive, h]
  · simp [burstAdvance, h]

theorem burst_phase_spec_witness :
    burstActive c4src = false
    ∧ (burstAdvance c4src).burst_phase_steps = 0
    ∧ burstActive c9srcB = true := by
  have h1 := burst_phase_spec.1 c4src (by decide)
  have h2 := burst_phase_spec.2.1 c9srcB rfl
  exact ⟨h1.1.trans (by decide), h1.2.trans (by decide), h2.1⟩

theorem sourceTick_phase (draw : Nat) (sendOk : Bool) (s : Source) :
    (sourceTick draw sendOk s).burst_phase_steps
      = (burstAdvance s).burst_phase_steps
    ∧ (sourceTick draw sendOk s).burst_period_steps
      = s.burst_period_steps := by
  have hp : (burstAdvance s).burst_period_steps = s.burst_period_steps := by
    unfold burstAdvance
    split <;> rfl
  unfold sourceTick
  dsimp only []
  split
  · split <;> exact ⟨rfl, hp⟩
  · exact ⟨rfl, hp⟩

/-- C9 counterexample: after the reachable command sequence NUM (one
source, no sinks), BURST_PERIOD source 0 value 5, BURST_PHASE source 0
value 100, the state has a source with burst_period_steps = 5 but
burst_phase_steps = 100, outside [0, burst_period_steps): the claimed
invariant does not hold in every interpreter-reachable state. -/
theorem burst_phase_invariant_counterexample :
    (stateOf (execProgram (fun _ => okEnv) 4 0 (initState 200 0 false [] [])
        [0x06, 0x0001, 0x21, 5, 0x23, 100, 0x00])).sources.getD 0 defaultSource
      = c9done
    ∧ c9done.burst_period_steps = 5 ∧ c9done.burst_phase_steps = 100
    ∧ (5 : Nat) ≠ 0 ∧ ¬ ((100 : Nat) < 5) := by
  exact ⟨by decide, by decide, by decide, by decide, by decide⟩

/-- C9 amended: the engine timestep update itself always leaves the burst
phase of every source with a non-zero burst period inside
[0, burst_period), so the invariant holds after every engine tick even if
an interpreter command (BURST_PHASE or BURST_PERIOD accept arbitrary
values) put the phase outside that range; a source with burst period 0 is
continuously active. -/
theorem engine_tick_restores_burst_invariant
    (s : Source) (draw : Nat) (sendOk : Bool) :
    (s.burst_period_steps ≠ 0 →
      (sourceTick draw sendOk s).burst_phase_steps < s.burst_period_steps)
    ∧ (s.burst_period_steps = 0 → burstActive s = true) := by
  refine ⟨fun h => ?_, fun h => by simp [burstActive, h]⟩
  rw [(sourceTick_phase draw sendOk s).1]
  unfold burstAdvance
  rw [if_pos h]
  dsimp only []
  split
  · exact Nat.pos_of_ne_zero h
  · omega

theorem engine_tick_restores_burst_invariant_witness :
    (sourceTick 0 true c9src).burst_phase_steps < 5
    ∧ burstActive c9srcB = true := by
  exact ⟨(engine_tick_restores_burst_invariant c9src 0 true).1 (by decide),
         (engine_tick_restores_burst_invariant c9srcB 0 true).2 rfl⟩

theorem length_filterMap_ite (p : Nat → Bool) (g : Nat → Nat) (l : List Nat) :
    (l.filterMap (fun c => if p c then some (g c) else none)).length
      = (l.filter p).length := by
  induction l with
  | nil => rfl
  | cons a l ih =>
    by_cases h : p a <;> simp [List.filterMap_cons, List.filter_cons, h, ih]

theorem currentValues_length (st : NTState) (router reinj : List Nat) :
    (currentValues st router reinj).length
      = numSelected st.to_record st.sources.length st.sinks.length := by
  unfold currentValues numSelected
  split_ifs <;> simp [length_filterMap_ite] <;>
    simp only [show (fun c => st.to_record.testBit c) = st.to_record.testBit
      from rfl] <;> omega

theorem recordStep_fields (st : NTState) (router reinj : List Nat)
    (first dmaOk : Bool) :
    (recordStep st router reinj first dmaOk).to_record = st.to_record
    ∧ (recordStep st router reinj first dmaOk).sources = st.sources
    ∧ (recordStep st router reinj first dmaOk).sinks = st.sinks
    ∧ (recordStep st router reinj first dmaOk).sdram_word0 = st.sdram_word0
    ∧ (recordStep st router reinj first dmaOk).record_interval_steps
      = st.record_interval_steps
    ∧ (recordStep st router reinj first dmaOk).timestep_ticks
      = st.timestep_ticks := by
  unfold recordStep
  dsimp only []
  split <;> exact ⟨rfl, rfl, rfl, rfl, rfl, rfl⟩

theorem recordStep_cursor (st : NTState) (router reinj : List Nat)
    (dmaOk : Bool) :
    (recordStep st router reinj false dmaOk).sdram_cursor
      = st.sdram_cursor + (currentValues st router reinj).length := by
  unfold recordStep
  dsimp only []
  split
  · rfl
  · rename_i h
    have h0 : (currentValues st router reinj).length = 0 := by
      rcases Nat.eq_zero_or_pos (currentValues st router reinj).length with h1 | h1
      · exact h1
      · exact absurd ⟨rfl, h1⟩ h
    simp [h0]

theorem recordStep_buffers (st : NTState) (router reinj : List Nat)
    (first dmaOk : Bool) (j : Nat)
    (hj : j < (currentValues st router reinj).length) :
    (recordStep st router reinj first dmaOk).last_recorded.getD j 0
      = (currentValues st router reinj).getD j 0
    ∧ (recordStep st router reinj first dmaOk).recorded_value_buffer.getD j 0
      = sub32 ((currentValues st router reinj).getD j 0)
          (st.last_recorded.getD j 0) := by
  have hlr : ∀ rest : List Nat,
      ((currentValues st router reinj) ++ rest).getD j 0
        = (currentValues st router reinj).getD j 0 :=
    fun rest => List.getD_append _ _ _ _ hj
  have hbuf : ∀ rest : List Nat,
      (((List.range (currentValues st router reinj).length).map
          (fun i => sub32 ((currentValues st router reinj).getD i 0)
            (st.last_recorded.getD i 0))) ++ rest).getD j 0
        = sub32 ((currentValues st router reinj).getD j 0)
            (st.last_recorded.getD j 0) := by
    intro rest
    rw [List.getD_append _ _ _ _ (by simpa using hj)]
    exact getD_map_range _ _ hj
  unfold recordStep
  dsimp only []
  split <;> exact ⟨hlr _, hbuf _⟩

theorem sub32_add_mod (a k : Nat) : sub32 ((a + k) % two32) a = k % two32 := by
  have h2 : 0 < two32 := by norm_num [two32]
  have hle : a % two32 ≤ a := Nat.mod_le a two32
  have hlt : a % two32 < two32 := Nat.mod_lt a h2
  have hdm := Nat.div_add_mod a two32
  unfold sub32
  rw [Nat.mod_add_mod]
  have key : (a + k) + (two32 - a % two32)
      = k + two32 * (a / two32) + two32 := by omega
  rw [key, Nat.add_mod_right, Nat.add_mul_mod_self_left]

/-- C6: on every sample, for every selected counter position the recorder
stores current - last_observed (wrapping 32-bit subtraction) into the delta
buffer and overwrites last_observed with current; hence a second sample in
a state carrying the last_observed buffer of the first stores a delta of
exactly k (mod 2^32) whenever the counter value at that position grew by k
(including growth by 0 and unsigned wraparound). -/
theorem recorder_delta_law (st st2 : NTState) (r1 j1 r2 j2 : List Nat)
    (f1 d1 f2 d2 : Bool) (j k : Nat)
    (hj : j < (currentValues st r1 j1).length)
    (hmid : st2.last_recorded = (recordStep st r1 j1 f1 d1).last_recorded)
    (hj2 : j < (currentValues st2 r2 j2).length)
    (hk : (currentValues st2 r2 j2).getD j 0
        = ((currentValues st r1 j1).getD j 0 + k) % two32) :
    (recordStep st r1 j1 f1 d1).last_recorded.getD j 0
      = (currentValues st r1 j1).getD j 0
    ∧ (recordStep st r1 j1 f1 d1).recorded_value_buffer.getD j 0
      = sub32 ((currentValues st r1 j1).getD j 0) (st.last_recorded.getD j 0)
    ∧ (recordStep st2 r2 j2 f2 d2).recorded_value_buffer.getD j 0
      = k % two32 := by
  have h1 := recordStep_buffers st r1 j1 f1 d1 j hj
  have h2 := recordStep_buffers st2 r2 j2 f2 d2 j hj2
  refine ⟨h1.1, h1.2, ?_⟩
  rw [h2.2, hk, hmid, h1.1]
  exact sub32_add_mod _ k

theorem recorder_delta_law_witness :
    (recordStep c6st [] [] true true).last_recorded.getD 0 0 = 10
    ∧ (recordStep c6st [] [] true true).recorded_value_buffer.getD 0 0 = 10
    ∧ (recordStep c6mid [] [] false true).recorded_value_buffer.getD 0 0 = 7 := by
  have h := recorder_delta_law c6st c6mid [] [] [] [] true true false true 0 7
    (by decide) (by decide) (by decide) (by decide)
  refine ⟨h.1.trans (by decide), h.2.1.trans (by decide), h.2.2.trans (by decide)⟩

theorem runAux_spec (env : RunEnv) (timestep : Nat) (readings : List Nat) :
    ∀ (r out : RunSt), runAux env timestep readings r = some out →
      out.left = 0
      ∧ out.done = r.done + r.left
      ∧ out.st.sdram_word0 = r.st.sdram_word0
      ∧ ∃ ds : List Bool, out.lates = r.lates ++ ds ∧ ds.length = r.left
          ∧ out.missed = (r.missed || ds.any (fun b => b)) := by
  induction readings with
  | nil =>
    intro r out h
    unfold runAux at h
    rcases hl : r.left with _ | left1
    · rw [hl] at h
      simp at h
      subst h
      exact ⟨hl, by omega, rfl, [], by simp, by simp [hl], by simp⟩
    · rw [hl] at h
      simp at h
  | cons t rest ih =>
    intro r out h
    unfold runAux at h
    rcases hl : r.left with _ | left1
    · rw [hl] at h
      simp at h
      subst h
      exact ⟨hl, by omega, rfl, [], by simp, by simp [hl], by simp⟩
    · rw [hl] at h
      dsimp only [] at h
      by_cases hskip : 0 < toInt32 (sub32 t r.next)
      · rw [if_pos hskip] at h
        have hr := ih r out h
        exact ⟨hr.1, by have := hr.2.1; omega, hr.2.2.1,
               hr.2.2.2.choose,
               hr.2.2.2.choose_spec.1,
               by have := hr.2.2.2.choose_spec.2.1; omega,
               hr.2.2.2.choose_spec.2.2⟩
      · rw [if_neg hskip] at h
        split at h
        · split at h
          · obtain ⟨o1, o2, o3, ds, d1, d2, d3⟩ := ih _ out h
            dsimp only [] at o2 o3 d1 d2 d3
            refine ⟨o1, by omega, ?_,
              deadlinePast t (sub32 r.next timestep) :: ds, ?_, ?_, ?_⟩
            · exact o3.trans ((recordStep_fields _ _ _ _ _).2.2.2.1)
            · rw [d1]
              simp
            · simp only [List.length_cons]
              omega
            · rw [d3]
              simp [Bool.or_assoc]
          · obtain ⟨o1, o2, o3, ds, d1, d2, d3⟩ := ih _ out h
            dsimp only [] at o2 o3 d1 d2 d3
            refine ⟨o1, by omega, o3,
              deadlinePast t (sub32 r.next timestep) :: ds, ?_, ?_, ?_⟩
            · rw [d1]
              simp
            · simp only [List.length_cons]
              omega
            · rw [d3]
              simp [Bool.or_assoc]
        · obtain ⟨o1, o2, o3, ds, d1, d2, d3⟩ := ih _ out h
          dsimp only [] at o2 o3 d1 d2 d3
          refine ⟨o1, by omega, o3,
            deadlinePast t (sub32 r.next timestep) :: ds, ?_, ?_, ?_⟩
          · rw [d1]
            simp
          · simp only [List.length_cons]
            omega
          · rw [d3]
            simp [Bool.or_assoc]

theorem run_preserves_word0 (env : RunEnv) (st : NTState) (ticks : Nat)
    (out : RunSt) (h : run env st ticks = some out) :
    out.st.sdram_word0 = st.sdram_word0 := by
  unfold run at h
  rcases hr : env.readings with _ | ⟨t0, rest⟩ <;> rw [hr] at h
  · simp at h
  · dsimp only [] at h
    rcases ha : runAux env st.timestep_ticks rest
        { st := recordStep st (env.hw 0).1 (env.hw 0).2 true (env.dma 0),
          next := t0, left := ticks, done := 0, recElapsed := 0,
          samples := 1, missed := false, lates := [] } with _ | r
    · rw [ha] at h
      simp at h
    · rw [ha] at h
      dsimp only [] at h
      have hw : r.st.sdram_word0 = st.sdram_word0 :=
        (runAux_spec env st.timestep_ticks rest _ r ha).2.2.1.trans
          ((recordStep_fields st (env.hw 0).1 (env.hw 0).2 true
            (env.dma 0)).2.2.2.1)
      split at h <;> simp only [Option.some.injEq] at h <;> subst h
      · exact ((recordStep_fields _ _ _ _ _).2.2.2.1).trans hw
      · exact hw

/-- C5: run(ticks) executes exactly ticks timesteps whenever it completes,
returning true exactly when at least one timestep found its freshly
scheduled deadline already in the past (the indication is sticky for the
whole call), and a true return makes the interpreter set the
deadline-missed error bit while continuing with the next instruction. -/
theorem run_deadline_spec :
    (∀ env st ticks out, run env st ticks = some out →
      out.done = ticks ∧ out.lates.length = ticks
      ∧ (out.missed = true ↔ true ∈ out.lates))
    ∧ (∀ env st w op rest out, w &&& 0xFF = 0x05 →
      run env.runEnv st op = some out →
      execInstr env st w (op :: rest)
        = (if out.missed then
            StepRes.cont
              { out.st with
                error_occurred := out.st.error_occurred ||| NT_ERR_DEADLINE_MISSED }
              rest
          else StepRes.cont out.st rest)) := by
  constructor
  · intro env st ticks out h
    unfold run at h
    rcases hr : env.readings with _ | ⟨t0, rest⟩ <;> rw [hr] at h
    · simp at h
    · dsimp only [] at h
      rcases ha : runAux env st.timestep_ticks rest
          { st := recordStep st (env.hw 0).1 (env.hw 0).2 true (env.dma 0),
            next := t0, left := ticks, done := 0, recElapsed := 0,
            samples := 1, missed := false, lates := [] } with _ | r
      · rw [ha] at h
        simp at h
      · rw [ha] at h
        dsimp only [] at h
        obtain ⟨o1, o2, o3, ds, d1, d2, d3⟩ :=
          runAux_spec env st.timestep_ticks rest _ r ha
        dsimp only [] at o2 d1 d2 d3
        simp only [List.nil_append] at d1
        have hdone : r.done = ticks := by omega
        have hlen : r.lates.length = ticks := by rw [d1]; omega
        have hmiss : r.missed = r.lates.any (fun b => b) := by
          rw [d3, d1]
          simp
        have hfields : out.done = r.done ∧ out.lates = r.lates
            ∧ out.missed = r.missed := by
          split at h <;> simp only [Option.some.injEq] at h <;> subst h
          · exact ⟨rfl, rfl, rfl⟩
          · exact ⟨rfl, rfl, rfl⟩
        refine ⟨hfields.1.trans hdone, by rw [hfields.2.1]; exact hlen, ?_⟩
        rw [hfields.2.2, hfields.2.1, hmiss]
        simp [List.any_eq_true]
  · intro env st w op rest out hcmd hrun
    unfold execInstr
    dsimp only []
    rw [hcmd]
    norm_num
    rw [hrun]

theorem run_deadline_spec_witness :
    (runStOf (run c5run c5st 2)).done = 2
    ∧ (runStOf (run c5run c5st 2)).missed = true
    ∧ execInstr c5ienv c5st 0x05 [2]
      = StepRes.cont
          { (runStOf (run c5run c5st 2)).st with
            error_occurred :=
              (runStOf (run c5run c5st 2)).st.error_occurred ||| NT_ERR_DEADLINE_MISSED }
          [] := by
  have hrun : run c5run c5st 2 = some (runStOf (run c5run c5st 2)) := by decide
  have h1 := run_deadline_spec.1 c5run c5st 2 (runStOf (run c5run c5st 2)) hrun
  have hmiss : (runStOf (run c5run c5st 2)).missed = true :=
    h1.2.2.mpr (by decide)
  have h2 := run_deadline_spec.2 c5ienv c5st 0x05 2 []
    (runStOf (run c5run c5st 2)) (by decide) hrun
  rw [hmiss] at h2
  simp only [if_true] at h2
  exact ⟨h1.1, hmiss, h2⟩

/-- C2 evaluation: a BURST_PERIOD instruction whose inline index (3) is
greater than or equal to the current number of sources (1) consumes its
operand word but does not set the bad-arguments error bit and, in the
model, leaves all state unchanged (the C store sources[3] is an
out-of-bounds write); the claimed behaviour does hold for the PROBABILITY
opcode at the same out-of-range index, which sets NT_ERR_BAD_ARGUMENTS,
consumes the operand and changes nothing else. -/
theorem burst_period_unchecked_index :
    execInstr okEnv c2state 0x0321 [5] = StepRes.cont c2state []
    ∧ c2state.error_occurred &&& NT_ERR_BAD_ARGUMENTS = 0
    ∧ execInstr okEnv c2state 0x0320 [5]
      = StepRes.cont { c2state with error_occurred := 16 } []
    ∧ NT_ERR_BAD_ARGUMENTS = 16 := by
  exact ⟨by decide, by decide, by decide, rfl⟩

theorem set_num_sources_word0 (st : NTState) (n : Nat) (a1 a2 a3 : Bool)
    (f1 f2 : List Nat) :
    (set_num_sources st n a1 a2 a3 f1 f2).sdram_word0 = st.sdram_word0 := by
  unfold set_num_sources
  split_ifs <;> rfl

theorem set_num_sinks_word0 (st : NTState) (n : Nat) (a1 a2 a3 : Bool)
    (f1 f2 : List Nat) :
    (set_num_sinks st n a1 a2 a3 f1 f2).sdram_word0 = st.sdram_word0 := by
  unfold set_num_sinks
  split_ifs <;> rfl

set_option maxHeartbeats 1000000 in
theorem execInstr_cont_word0 (env : Env) (st : NTState) (w : Nat)
    (rest : List Nat) (st1 : NTState) (rest1 : List Nat)
    (h : execInstr env st w rest = StepRes.cont st1 rest1) :
    st1.sdram_word0 = st.sdram_word0 := by
  unfold execInstr at h
  by_cases k00 : w &&& 0xFF = 0x00
  case pos =>
    rw [if_pos k00] at h
    cases h
  rw [if_neg k00] at h
  by_cases k01 : w &&& 0xFF = 0x01
  case pos =>
    rw [if_pos k01] at h
    rcases rest with _ | ⟨op, rest2⟩ <;> cases h <;> rfl
  rw [if_neg k01] at h
  by_cases k02 : w &&& 0xFF = 0x02
  case pos =>
    rw [if_pos k02] at h
    cases h
    rfl
  rw [if_neg k02] at h
  by_cases k03 : w &&& 0xFF = 0x03
  case pos =>
    rw [if_pos k03] at h
    rcases rest with _ | ⟨op, rest2⟩ <;> cases h <;> rfl
  rw [if_neg k03] at h
  by_cases k04 : w &&& 0xFF = 0x04
  case pos =>
    rw [if_pos k04] at h
    rcases rest with _ | ⟨op, rest2⟩ <;> cases h <;> rfl
  rw [if_neg k04] at h
  by_cases k05 : w &&& 0xFF = 0x05
  case pos =>
    rw [if_pos k05] at h
    rcases rest with _ | ⟨op, rest2⟩
    · cases h
    · dsimp only [] at h
      rcases hrun : run env.runEnv st op with _ | r
      · simp only [hrun] at h
        cases h
      · simp only [hrun] at h
        by_cases hm : r.missed = true
        · rw [if_pos hm] at h
          cases h
          exact run_preserves_word0 env.runEnv st op r hrun
        · rw [if_neg hm] at h
          cases h
          exact run_preserves_word0 env.runEnv st op r hrun
  rw [if_neg k05] at h
  by_cases k06 : w &&& 0xFF = 0x06
  case pos =>
    rw [if_pos k06] at h
    rcases rest with _ | ⟨op, rest2⟩
    · cases h
    · cases h
      exact (set_num_sinks_word0 _ _ _ _ _ _ _).trans
        (set_num_sources_word0 _ _ _ _ _ _ _)
  rw [if_neg k06] at h
  by_cases k07 : w &&& 0xFF = 0x07
  case pos =>
    rw [if_pos k07] at h
    rcases rest with _ | ⟨op, rest2⟩ <;> cases h <;> rfl
  rw [if_neg k07] at h
  by_cases k08 : w &&& 0xFF = 0x08
  case pos =>
    rw [if_pos k08] at h
    cases h
    rfl
  rw [if_neg k08] at h
  by_cases k09 : w &&& 0xFF = 0x09
  case pos =>
    rw [if_pos k09] at h
    cases h
    rfl
  rw [if_neg k09] at h
  by_cases k0A : w &&& 0xFF = 0x0A
  case pos =>
    rw [if_pos k0A] at h
    cases h
    rfl
  rw [if_neg k0A] at h
  by_cases k10 : w &&& 0xFF = 0x10
  case pos =>
    rw [if_pos k10] at h
    rcases rest with _ | ⟨op, rest2⟩ <;> cases h <;> rfl
  rw [if_neg k10] at h
  by_cases k11 : w &&& 0xFF = 0x11
  case pos =>
    rw [if_pos k11] at h
    rcases rest with _ | ⟨op, rest2⟩ <;> cases h <;> rfl
  rw [if_neg k11] at h
  by_cases k20 : w &&& 0xFF = 0x20
  case pos =>
    rw [if_pos k20] at h
    rcases rest with _ | ⟨op, rest2⟩
    · cases h
    · dsimp only [] at h
      by_cases hg : (w >>> 8) &&& 0xFF < st.sources.length
      · rw [if_pos hg] at h
        cases h
        rfl
      · rw [if_neg hg] at h
        cases h
        rfl
  rw [if_neg k20] at h
  by_cases k21 : w &&& 0xFF = 0x21
  case pos =>
    rw [if_pos k21] at h
    rcases rest with _ | ⟨op, rest2⟩ <;> cases h <;> rfl
  rw [if_neg k21] at h
  by_cases k22 : w &&& 0xFF = 0x22
  case pos =>
    rw [if_pos k22] at h
    rcases rest with _ | ⟨op, rest2⟩ <;> cases h <;> rfl
  rw [if_neg k22] at h
  by_cases k23 : w &&& 0xFF = 0x23
  case pos =>
    rw [if_pos k23] at h
    rcases rest with _ | ⟨op, rest2⟩ <;> cases h <;> rfl
  rw [if_neg k23] at h
  by_cases k24 : w &&& 0xFF = 0x24
  case pos =>
    rw [if_pos k24] at h
    rcases rest with _ | ⟨op, rest2⟩
    · cases h
    · dsimp only [] at h
      by_cases hg : (w >>> 8) &&& 0xFF < st.sources.length
      · rw [if_pos hg] at h
        cases h
        rfl
      · rw [if_neg hg] at h
        cases h
        rfl
  rw [if_neg k24] at h
  by_cases k25 : w &&& 0xFF = 0x25
  case pos =>
    rw [if_pos k25] at h
    by_cases hg : (w >>> 8) &&& 0xFF < st.sources.length
    · rw [if_pos hg] at h
      cases h
      rfl
    · rw [if_neg hg] at h
      cases h
      rfl
  rw [if_neg k25] at h
  by_cases k26 : w &&& 0xFF = 0x26
  case pos =>
    rw [if_pos k26] at h
    by_cases hg : (w >>> 8) &&& 0xFF < st.sources.length
    · rw [if_pos hg] at h
      cases h
      rfl
    · rw [if_neg hg] at h
      cases h
      rfl
  rw [if_neg k26] at h
  by_cases k30 : w &&& 0xFF = 0x30
  case pos =>
    rw [if_pos k30] at h
    cases h
    rfl
  rw [if_neg k30] at h
  by_cases k31 : w &&& 0xFF = 0x31
  case pos =>
    rw [if_pos k31] at h
    cases h
    rfl
  rw [if_neg k31] at h
  by_cases k32 : w &&& 0xFF = 0x32
  case pos =>
    rw [if_pos k32] at h
    rcases rest with _ | ⟨op, rest2⟩
    · cases h
    · dsimp only [] at h
      by_cases hg : (w >>> 8) &&& 0xFF < st.sinks.length
      · rw [if_pos hg] at h
        cases h
        rfl
      · rw [if_neg hg] at h
        cases h
        rfl
  rw [if_neg k32] at h
  cases h

theorem execInstr_exit (env : Env) (st : NTState) (w : Nat)
    (rest : List Nat) (hcmd : w &&& 0xFF = 0) :
    execInstr env st w rest
      = StepRes.halt { st with sdram_word0 := st.error_occurred } := by
  unfold execInstr
  dsimp only []
  rw [hcmd]
  norm_num

theorem recordStep_dma_error (st : NTState) (router reinj : List Nat)
    (hpos : 0 < (currentValues st router reinj).length) :
    (recordStep st router reinj false false).error_occurred
      = st.error_occurred ||| NT_ERR_DMA := by
  unfold recordStep
  dsimp only []
  rw [if_pos ⟨rfl, hpos⟩]
  simp

theorem recordIter_fields (st : NTState) (hw : Nat → List Nat × List Nat)
    (dma : Nat → Bool) : ∀ S : Nat,
    (recordIter st hw dma S).to_record = st.to_record
    ∧ (recordIter st hw dma S).sources = st.sources
    ∧ (recordIter st hw dma S).sinks = st.sinks := by
  intro S
  induction S with
  | zero => exact ⟨rfl, rfl, rfl⟩
  | succ s ih =>
    have hf := recordStep_fields (recordIter st hw dma s) (hw s).1 (hw s).2
      false (dma s)
    exact ⟨hf.1.trans ih.1, hf.2.1.trans ih.2.1, hf.2.2.1.trans ih.2.2⟩

theorem recordIter_cursor (st : NTState) (hw : Nat → List Nat × List Nat)
    (dma : Nat → Bool) (W : Nat)
    (hW : numSelected st.to_record st.sources.length st.sinks.length = W) :
    ∀ S : Nat,
    (recordIter st hw dma S).sdram_cursor = st.sdram_cursor + S * W := by
  intro S
  induction S with
  | zero => simp [recordIter]
  | succ s ih =>
    have hfields := recordIter_fields st hw dma s
    have hc := recordStep_cursor (recordIter st hw dma s) (hw s).1 (hw s).2
      (dma s)
    calc (recordIter st hw dma (s + 1)).sdram_cursor
        = (recordIter st hw dma s).sdram_cursor
          + (currentValues (recordIter st hw dma s) (hw s).1 (hw s).2).length :=
          hc
      _ = st.sdram_cursor + s * W + W := by
          rw [ih, currentValues_length, hfields.1, hfields.2.1,
            hfields.2.2, hW]
      _ = st.sdram_cursor + (s + 1) * W := by ring

/-- C8: a non-baseline sample with at least one selected counter advances
the result cursor by exactly the sample width, also when the DMA transfer
fails to start (which only sets the DMA error bit); S consecutive such
samples of width W advance the cursor by exactly S times W words; no
continuing instruction ever changes result word 0, which keeps its sentinel
until EXIT overwrites it with the accumulated error bits. -/
theorem result_cursor_spec :
    (∀ st router reinj dmaOk, 0 < (currentValues st router reinj).length →
        (recordStep st router reinj false dmaOk).sdram_cursor
          = st.sdram_cursor + (currentValues st router reinj).length
        ∧ (recordStep st router reinj false false).error_occurred
          = st.error_occurred ||| NT_ERR_DMA
        ∧ (recordStep st router reinj false dmaOk).sdram_word0
          = st.sdram_word0)
    ∧ (∀ st hw dma S W,
        numSelected st.to_record st.sources.length st.sinks.length = W →
        (recordIter st hw dma S).sdram_cursor = st.sdram_cursor + S * W)
    ∧ (∀ env st w rest st1 rest1,
        execInstr env st w rest = StepRes.cont st1 rest1 →
        st1.sdram_word0 = st.sdram_word0)
    ∧ (∀ env st w rest, w &&& 0xFF = 0 →
        execInstr env st w rest
          = StepRes.halt { st with sdram_word0 := st.error_occurred }) := by
  refine ⟨fun st router reinj dmaOk hpos => ?_,
          fun st hw dma S W hW => recordIter_cursor st hw dma W hW S,
          fun env st w rest st1 rest1 h =>
            execInstr_cont_word0 env st w rest st1 rest1 h,
          fun env st w rest hcmd => execInstr_exit env st w rest hcmd⟩
  exact ⟨recordStep_cursor st router reinj dmaOk,
         recordStep_dma_error st router reinj hpos,
         (recordStep_fields st router reinj false dmaOk).2.2.2.1⟩

theorem result_cursor_spec_witness :
    (recordStep c6st [] [] false false).sdram_cursor = 2
    ∧ (recordStep c6st [] [] false false).error_occurred = 4
    ∧ (recordIter c6st (fun _ => ([], [])) (fun _ => true) 3).sdram_cursor = 4
    ∧ (stateOf (execInstr okEnv c6st 0x02 [])).sdram_word0 = 1
    ∧ execInstr okEnv c6st 0x00 []
      = StepRes.halt { c6st with sdram_word0 := c6st.error_occurred } := by
  have h := result_cursor_spec
  have h1 := h.1 c6st [] [] false (by decide)
  have hc : execInstr okEnv c6st 0x02 []
      = StepRes.cont (stateOf (execInstr okEnv c6st 0x02 [])) [] := by decide
  refine ⟨h1.1.trans (by decide), h1.2.1.trans (by decide),
          (h.2.1 c6st (fun _ => ([], [])) (fun _ => true) 3 1 (by decide)).trans
            (by decide),
          (h.2.2.1 okEnv c6st 0x02 [] _ [] hc).trans (by decide),
          h.2.2.2 okEnv c6st 0x00 [] (by decide)⟩

end NetworkTester
